import Mathlib

/-!
Verification of the native input seat engine
(src/backends/native/meta-seat-impl.c, src/backends/native/meta-seat-native.c).

The C code is shallowly embedded: C `double`/`float` arithmetic is modelled by
exact rational arithmetic (ℚ), machine words by ℕ with explicit `% 2^32` where
wrap-around matters, and fallible or aborting paths by `Option`/explicit result
types.  External collaborators that the seat code calls into (viewport info,
line intersection, xkb state, the libinput binding) are modelled from the
specification's description of their interfaces; each such definition is marked
`Modelled from the spec:` in its doc comment.
-/

namespace MetaSeat

/-! ## Scroll events (meta-seat-impl.c: notify_scroll, notify_discrete_scroll,
check_notify_discrete_scroll, meta_seat_impl_notify_scroll_continuous,
discrete_to_direction, meta_seat_impl_notify_discrete_scroll) -/

/-- `DISCRETE_SCROLL_STEP` from meta-seat-impl.c. -/
def DISCRETE_SCROLL_STEP : ℚ := 10

/-- `ClutterScrollDirection` values used by the scroll paths. -/
inductive ScrollDirection where
  | smooth
  | up
  | down
  | left
  | right
deriving DecidableEq, Repr

/-- A queued `CLUTTER_SCROLL` event, keeping the fields the scroll paths set:
direction, smooth deltas, finish flags and the pointer-emulated flag. -/
structure ScrollEvent where
  direction : ScrollDirection
  deltaX : ℚ
  deltaY : ℚ
  finishH : Bool
  finishV : Bool
  emulated : Bool
deriving DecidableEq, Repr

/-- `notify_scroll`: builds the one `CLUTTER_SCROLL_SMOOTH` event, with the
libinput pixel deltas multiplied by `1.0 / DISCRETE_SCROLL_STEP`. -/
def notify_scroll (dx dy : ℚ) (finishH finishV : Bool) (emulated : Bool) :
    ScrollEvent :=
  { direction := .smooth
    deltaX := dx / DISCRETE_SCROLL_STEP
    deltaY := dy / DISCRETE_SCROLL_STEP
    finishH := finishH
    finishV := finishV
    emulated := emulated }

/-- `notify_discrete_scroll`: queues one discrete scroll event, unless the
direction is `CLUTTER_SCROLL_SMOOTH` (early return, no event). -/
def notify_discrete_scroll (dir : ScrollDirection) (emulated : Bool) :
    List ScrollEvent :=
  if dir = .smooth then []
  else [{ direction := dir, deltaX := 0, deltaY := 0,
          finishH := false, finishV := false, emulated := emulated }]

/-- Truncation toward zero, as the C cast / `fmod` family uses. -/
def ratTrunc (q : ℚ) : ℤ :=
  if 0 ≤ q then ⌊q⌋ else -⌊-q⌋

/-- `fmod` on exact rationals: `fmod(a,b) = a - b * trunc(a/b)`. -/
def fmodQ (a b : ℚ) : ℚ :=
  a - b * (ratTrunc (a / b) : ℚ)

/-- `floor (fabs (acc) / DISCRETE_SCROLL_STEP)` as a natural count. -/
def nDiscreteScrolls (acc : ℚ) : ℕ :=
  (⌊|acc| / DISCRETE_SCROLL_STEP⌋).toNat

/-- `check_notify_discrete_scroll`: emits the emulated discrete events for the
accumulated continuous deltas (all horizontal ones first, then the vertical
ones) and reduces both accumulators by `fmodf (acc, DISCRETE_SCROLL_STEP)`.
Returns the queued events and the two new accumulators. -/
def check_notify_discrete_scroll (accx accy : ℚ) :
    List ScrollEvent × ℚ × ℚ :=
  let n_xscrolls := nDiscreteScrolls accx
  let n_yscrolls := nDiscreteScrolls accy
  let xevs := (List.replicate n_xscrolls
      (notify_discrete_scroll (if 0 < accx then .right else .left) true)).flatten
  let yevs := (List.replicate n_yscrolls
      (notify_discrete_scroll (if 0 < accy then .down else .up) true)).flatten
  (xevs ++ yevs,
   fmodQ accx DISCRETE_SCROLL_STEP,
   fmodQ accy DISCRETE_SCROLL_STEP)

/-- `meta_seat_impl_notify_scroll_continuous`: updates the two accumulators
(resetting an axis when its FINISHED flag is set, adding the delta otherwise),
emits the smooth event, then the emulated discrete events.  Input is the seat's
accumulator pair plus the raw event; output is the queued event list (in queue
order) and the new accumulator pair. -/
def meta_seat_impl_notify_scroll_continuous
    (accx accy dx dy : ℚ) (finishH finishV : Bool) :
    List ScrollEvent × ℚ × ℚ :=
  let accx' := if finishH then 0 else accx + dx
  let accy' := if finishV then 0 else accy + dy
  let r := check_notify_discrete_scroll accx' accy'
  (notify_scroll dx dy finishH finishV false :: r.1, r.2)

/-- `discrete_to_direction`: `none` models the `g_assert_not_reached ()`
branch (both discrete deltas zero). -/
def discrete_to_direction (discrete_dx discrete_dy : ℚ) :
    Option ScrollDirection :=
  if 0 < discrete_dx then some .right
  else if discrete_dx < 0 then some .left
  else if 0 < discrete_dy then some .down
  else if discrete_dy < 0 then some .up
  else none

/-- `meta_seat_impl_notify_discrete_scroll` (wheel source): one smooth event
(deltas scaled up by `DISCRETE_SCROLL_STEP`, marked emulated), then one
non-emulated discrete event.  `none` models the assertion failure inside
`discrete_to_direction` aborting the process. -/
def meta_seat_impl_notify_discrete_scroll (discrete_dx discrete_dy : ℚ) :
    Option (List ScrollEvent) :=
  match discrete_to_direction discrete_dx discrete_dy with
  | none => none
  | some dir =>
      some (notify_scroll (discrete_dx * DISCRETE_SCROLL_STEP)
              (discrete_dy * DISCRETE_SCROLL_STEP) false false true
            :: notify_discrete_scroll dir false)

/-! ### Arithmetic lemmas about `fmodQ` -/

theorem ratTrunc_neg (q : ℚ) : ratTrunc (-q) = -ratTrunc q := by
  unfold ratTrunc
  rcases lt_trichotomy q 0 with h | h | h
  · rw [if_pos (by linarith), if_neg (by linarith), neg_neg]
  · simp [h]
  · rw [if_neg (by linarith), if_pos (by linarith), neg_neg]

theorem fmodQ_neg (a b : ℚ) : fmodQ (-a) b = -fmodQ a b := by
  unfold fmodQ
  rw [neg_div, ratTrunc_neg]
  push_cast
  ring

theorem fmodQ_nonneg_eq (a : ℚ) (ha : 0 ≤ a) :
    fmodQ a DISCRETE_SCROLL_STEP = 10 * Int.fract (a / 10) := by
  unfold fmodQ ratTrunc DISCRETE_SCROLL_STEP
  rw [if_pos (div_nonneg ha (by norm_num))]
  simp only [Int.fract]
  ring

theorem abs_fmodQ_lt (a : ℚ) :
    |fmodQ a DISCRETE_SCROLL_STEP| < DISCRETE_SCROLL_STEP := by
  have key : ∀ b : ℚ, 0 ≤ b →
      |fmodQ b DISCRETE_SCROLL_STEP| < DISCRETE_SCROLL_STEP := by
    intro b hb
    rw [fmodQ_nonneg_eq b hb]
    have h1 := Int.fract_nonneg (b / 10)
    have h2 := Int.fract_lt_one (b / 10)
    rw [abs_of_nonneg (by positivity)]
    unfold DISCRETE_SCROLL_STEP
    linarith
  rcases le_or_lt 0 a with h | h
  · exact key a h
  · have heq : fmodQ a DISCRETE_SCROLL_STEP =
        -fmodQ (-a) DISCRETE_SCROLL_STEP := by
      rw [← fmodQ_neg, neg_neg]
    rw [heq, abs_neg]
    exact key (-a) (by linarith)

theorem flatten_replicate_singleton {α : Type} (n : ℕ) (a : α) :
    (List.replicate n [a]).flatten = List.replicate n a := by
  induction n with
  | zero => rfl
  | succ n ih => simp [List.replicate_succ, ih]

theorem filter_replicate_false {α : Type} (p : α → Bool) (n : ℕ) (a : α)
    (h : p a = false) : (List.replicate n a).filter p = [] := by
  induction n with
  | zero => rfl
  | succ n ih => simp [List.replicate_succ, List.filter_cons, h, ih]

theorem horiz_dir_ne_smooth (q : ℚ) :
    (if 0 < q then ScrollDirection.right else ScrollDirection.left) ≠
      ScrollDirection.smooth := by
  split <;> simp

theorem vert_dir_ne_smooth (q : ℚ) :
    (if 0 < q then ScrollDirection.down else ScrollDirection.up) ≠
      ScrollDirection.smooth := by
  split <;> simp

theorem notify_discrete_scroll_of_ne (dir : ScrollDirection) (em : Bool)
    (h : dir ≠ .smooth) :
    notify_discrete_scroll dir em =
      [{ direction := dir, deltaX := 0, deltaY := 0,
         finishH := false, finishV := false, emulated := em }] := by
  unfold notify_discrete_scroll
  rw [if_neg h]

/-- C1: a continuous-source scroll event adds the per-axis deltas to the seat
accumulators (resetting an axis whose FINISHED flag is set, which yields zero
discrete events for it), queues exactly one SCROLL_SMOOTH event whose deltas
are the raw pixels divided by `DISCRETE_SCROLL_STEP = 10`, then
`⌊|acc_x|/10⌋` emulated LEFT/RIGHT events followed by `⌊|acc_y|/10⌋` emulated
UP/DOWN events, and finally reduces each accumulator to `fmod (acc, 10)`,
whose magnitude is strictly below 10. -/
theorem continuous_scroll_pipeline
    (accx accy dx dy : ℚ) (finishH finishV : Bool) :
    (meta_seat_impl_notify_scroll_continuous accx accy dx dy finishH finishV).1 =
      notify_scroll dx dy finishH finishV false ::
        (List.replicate (nDiscreteScrolls (if finishH then 0 else accx + dx))
          { direction := if 0 < (if finishH then 0 else accx + dx) then
                ScrollDirection.right else ScrollDirection.left,
            deltaX := 0, deltaY := 0, finishH := false, finishV := false,
            emulated := true } ++
         List.replicate (nDiscreteScrolls (if finishV then 0 else accy + dy))
          { direction := if 0 < (if finishV then 0 else accy + dy) then
                ScrollDirection.down else ScrollDirection.up,
            deltaX := 0, deltaY := 0, finishH := false, finishV := false,
            emulated := true }) ∧
    ((meta_seat_impl_notify_scroll_continuous accx accy dx dy finishH
        finishV).1.filter
      (fun e => decide (e.direction = ScrollDirection.smooth))).length = 1 ∧
    (meta_seat_impl_notify_scroll_continuous accx accy dx dy finishH
        finishV).2.1 =
      fmodQ (if finishH then 0 else accx + dx) DISCRETE_SCROLL_STEP ∧
    (meta_seat_impl_notify_scroll_continuous accx accy dx dy finishH
        finishV).2.2 =
      fmodQ (if finishV then 0 else accy + dy) DISCRETE_SCROLL_STEP ∧
    |(meta_seat_impl_notify_scroll_continuous accx accy dx dy finishH
        finishV).2.1| < DISCRETE_SCROLL_STEP ∧
    |(meta_seat_impl_notify_scroll_continuous accx accy dx dy finishH
        finishV).2.2| < DISCRETE_SCROLL_STEP := by
  have h1 :
      (meta_seat_impl_notify_scroll_continuous accx accy dx dy finishH
          finishV).1 =
        notify_scroll dx dy finishH finishV false ::
          (List.replicate (nDiscreteScrolls (if finishH then 0 else accx + dx))
            { direction := if 0 < (if finishH then 0 else accx + dx) then
                  ScrollDirection.right else ScrollDirection.left,
              deltaX := 0, deltaY := 0, finishH := false, finishV := false,
              emulated := true } ++
           List.replicate (nDiscreteScrolls (if finishV then 0 else accy + dy))
            { direction := if 0 < (if finishV then 0 else accy + dy) then
                  ScrollDirection.down else ScrollDirection.up,
              deltaX := 0, deltaY := 0, finishH := false, finishV := false,
              emulated := true }) := by
    simp only [meta_seat_impl_notify_scroll_continuous,
      check_notify_discrete_scroll,
      notify_discrete_scroll_of_ne _ _ (horiz_dir_ne_smooth _),
      notify_discrete_scroll_of_ne _ _ (vert_dir_ne_smooth _),
      flatten_replicate_singleton]
  refine ⟨h1, ?_, rfl, rfl, abs_fmodQ_lt _, abs_fmodQ_lt _⟩
  rw [h1]
  rw [List.filter_cons]
  have hs : decide ((notify_scroll dx dy finishH finishV false).direction =
      ScrollDirection.smooth) = true := by
    simp [notify_scroll]
  rw [if_pos (by simp [notify_scroll])]
  rw [List.filter_append,
    filter_replicate_false _ _ _ (by
      simp only [decide_eq_false_iff_not]
      exact horiz_dir_ne_smooth _),
    filter_replicate_false _ _ _ (by
      simp only [decide_eq_false_iff_not]
      exact vert_dir_ne_smooth _)]
  rfl

/-- C10: for a wheel-source axis event with at least one nonzero per-axis
discrete value, exactly one SCROLL_SMOOTH event (marked emulated) is emitted
followed by exactly one non-emulated discrete event, independent of the
discrete magnitudes, and `discrete_to_direction`'s `g_assert_not_reached`
branch is not reached; that branch fires precisely when both discrete values
are zero (it is guarded only by the nonzero-discrete precondition). -/
theorem wheel_scroll_one_smooth_one_discrete (dx dy : ℚ)
    (h : ¬(dx = 0 ∧ dy = 0)) :
    meta_seat_impl_notify_discrete_scroll dx dy =
      some [notify_scroll (dx * DISCRETE_SCROLL_STEP)
              (dy * DISCRETE_SCROLL_STEP) false false true,
            { direction := (discrete_to_direction dx dy).getD
                ScrollDirection.smooth,
              deltaX := 0, deltaY := 0, finishH := false, finishV := false,
              emulated := false }] ∧
    (discrete_to_direction dx dy).getD ScrollDirection.smooth ≠
      ScrollDirection.smooth ∧
    meta_seat_impl_notify_discrete_scroll 0 0 = none := by
  have hdir : ∃ d, discrete_to_direction dx dy = some d ∧
      d ≠ ScrollDirection.smooth := by
    unfold discrete_to_direction
    by_cases h1 : 0 < dx
    · exact ⟨.right, by simp [h1], by simp⟩
    · by_cases h2 : dx < 0
      · exact ⟨.left, by simp [h1, h2], by simp⟩
      · have hdx : dx = 0 := le_antisymm (not_lt.mp h1) (not_lt.mp h2)
        by_cases h3 : 0 < dy
        · exact ⟨.down, by simp [h1, h2, h3], by simp⟩
        · by_cases h4 : dy < 0
          · exact ⟨.up, by simp [h1, h2, h3, h4], by simp⟩
          · exact absurd ⟨hdx, le_antisymm (not_lt.mp h3) (not_lt.mp h4)⟩ h
  obtain ⟨d, hd, hds⟩ := hdir
  refine ⟨?_, ?_, rfl⟩
  · unfold meta_seat_impl_notify_discrete_scroll
    rw [hd]
    simp only [Option.getD_some, hd]
    rw [notify_discrete_scroll_of_ne _ _ hds]
  · rw [hd]
    simpa using hds

/-- Closed witness for `wheel_scroll_one_smooth_one_discrete` at the concrete
input `(1, 0)`. -/
theorem wheel_scroll_one_smooth_one_discrete_witness :
    ¬((1 : ℚ) = 0 ∧ (0 : ℚ) = 0) ∧
    (meta_seat_impl_notify_discrete_scroll 1 0 =
      some [notify_scroll (1 * DISCRETE_SCROLL_STEP)
              (0 * DISCRETE_SCROLL_STEP) false false true,
            { direction := (discrete_to_direction 1 0).getD
                ScrollDirection.smooth,
              deltaX := 0, deltaY := 0, finishH := false, finishV := false,
              emulated := false }] ∧
    (discrete_to_direction 1 0).getD ScrollDirection.smooth ≠
      ScrollDirection.smooth ∧
    meta_seat_impl_notify_discrete_scroll 0 0 = none) :=
  ⟨by norm_num, wheel_scroll_one_smooth_one_discrete 1 0 (by norm_num)⟩

/-! ## Buttons and keys (meta-seat-impl.c: update_button_count,
meta_seat_impl_notify_button, and the seat-wide debounce checks in
process_device_event).  evdev codes and clutter constants are from
linux/input.h and clutter; modular wrap of the C uint32 arithmetic is
immaterial for codes below 2^31, so codes are ℤ. -/

def BTN_LEFT : ℤ := 0x110
def BTN_RIGHT : ℤ := 0x111
def BTN_MIDDLE : ℤ := 0x112
def BTN_TOOL_PEN : ℤ := 0x140
def BTN_STYLUS3 : ℤ := 0x149
def BTN_TOUCH : ℤ := 0x14a
def BTN_STYLUS : ℤ := 0x14b
def BTN_STYLUS2 : ℤ := 0x14c

def CLUTTER_BUTTON1_MASK : ℕ := 2 ^ 8
def CLUTTER_BUTTON2_MASK : ℕ := 2 ^ 9
def CLUTTER_BUTTON3_MASK : ℕ := 2 ^ 10
def CLUTTER_BUTTON4_MASK : ℕ := 2 ^ 11
def CLUTTER_BUTTON5_MASK : ℕ := 2 ^ 12

/-- Bitwise complement within a 32-bit word (`~m` on a uint32). -/
def NOT32 (m : ℕ) : ℕ := (2 ^ 32 - 1) ^^^ m

/-- `update_button_count`: increment on press; decrement on release, except
that a release finding the counter at 0 logs and leaves it at 0 (which ℕ
truncated subtraction models exactly).  Returns the new counter, which is
also the value the callers test. -/
def update_button_count (count : ℕ) (pressed : Bool) : ℕ :=
  if pressed then count + 1 else count - 1

/-- The drop test both `meta_seat_impl_notify_key` and
`meta_seat_impl_notify_button` apply to the updated counter:
`(state && count > 1) || (!state && count != 0)`. -/
def button_event_dropped (newCount : ℕ) (pressed : Bool) : Bool :=
  (pressed && decide (1 < newCount)) || (!pressed && decide (newCount ≠ 0))

/-- The evdev → logical button switch in `meta_seat_impl_notify_button`. -/
def clutter_button_from_evdev (tablet : Bool) (button : ℤ) : ℤ :=
  if button = BTN_LEFT ∨ button = BTN_TOUCH then 1
  else if button = BTN_RIGHT ∨ button = BTN_STYLUS then 3
  else if button = BTN_MIDDLE ∨ button = BTN_STYLUS2 then 2
  else if button = BTN_STYLUS3 then 8
  else if tablet then button - BTN_TOOL_PEN + 4
  else button - (BTN_LEFT - 1) + 4

/-- The `maskmap` array of `meta_seat_impl_notify_button` (8 entries, the
last three zero). -/
def maskmap : List ℕ :=
  [CLUTTER_BUTTON1_MASK, CLUTTER_BUTTON3_MASK, CLUTTER_BUTTON2_MASK,
   CLUTTER_BUTTON4_MASK, CLUTTER_BUTTON5_MASK, 0, 0, 0]

/-- The `button_state` modifier-mask update of `meta_seat_impl_notify_button`
(guarded by `button_nr < G_N_ELEMENTS (maskmap)`). -/
def update_button_state_mask (st : ℕ) (button_nr : ℤ) (pressed : Bool) : ℕ :=
  if button_nr < 8 then
    let m := maskmap.getD (button_nr - 1).toNat 0
    if pressed then st ||| m else st &&& NOT32 m
  else st

/-- A queued button press/release event (the fields the claims inspect). -/
structure ButtonEvent where
  pressed : Bool
  buttonNr : ℤ
deriving DecidableEq, Repr

/-- `meta_seat_impl_notify_button` on the seat's per-code counter and
`button_state` mask: debounce on the counter, map the code, reject outside
[1,12], update the modifier mask, queue an event.  Result: optional event
(`none` = dropped), new counter, new `button_state`. -/
def meta_seat_impl_notify_button (count st : ℕ) (tablet : Bool)
    (button : ℤ) (pressed : Bool) : Option ButtonEvent × ℕ × ℕ :=
  let c := update_button_count count pressed
  if button_event_dropped c pressed then (none, c, st)
  else
    let nr := clutter_button_from_evdev tablet button
    if nr < 1 ∨ 12 < nr then (none, c, st)
    else (some { pressed := pressed, buttonNr := nr }, c,
          update_button_state_mask st nr pressed)

/-- The seat-wide key filter of `process_device_event`
(LIBINPUT_EVENT_KEYBOARD_KEY): `true` means the raw event is dropped. -/
def seat_wide_key_filter (pressed : Bool) (seat_key_count : ℕ) : Bool :=
  (pressed && decide (seat_key_count ≠ 1)) ||
  (!pressed && decide (seat_key_count ≠ 0))

/-- The seat-wide button filter of `process_device_event`
(LIBINPUT_EVENT_POINTER_BUTTON): `true` means the raw event is dropped. -/
def seat_wide_button_filter (pressed : Bool) (seat_button_count : ℕ) : Bool :=
  (pressed && decide (seat_button_count ≠ 1)) ||
  (!pressed && decide (seat_button_count ≠ 0))

/-- `process_device_event` on one raw POINTER_BUTTON event: the seat-wide
filter, then `meta_seat_impl_notify_button`. -/
def process_button_event (count st : ℕ) (tablet : Bool) (button : ℤ)
    (pressed : Bool) (seat_button_count : ℕ) : Option ButtonEvent × ℕ × ℕ :=
  if seat_wide_button_filter pressed seat_button_count then (none, count, st)
  else meta_seat_impl_notify_button count st tablet button pressed

/-- Processing a sequence of raw POINTER_BUTTON events for one code,
collecting the queued events. -/
def run_button_events (count st : ℕ) (tablet : Bool) (button : ℤ) :
    List (Bool × ℕ) → List ButtonEvent
  | [] => []
  | (p, sc) :: rest =>
      let r := process_button_event count st tablet button p sc
      r.1.toList ++ run_button_events r.2.1 r.2.2 tablet button rest

theorem land_mask32_eq_self (st : ℕ) (h : st < 2 ^ 32) :
    st &&& (2 ^ 32 - 1) = st := by
  apply Nat.eq_of_testBit_eq
  intro i
  rw [Nat.testBit_land, Nat.testBit_two_pow_sub_one]
  by_cases hi : i < 32
  · simp [hi]
  · have : st < 2 ^ i :=
      lt_of_lt_of_le h (Nat.pow_le_pow_right (by norm_num) (not_lt.mp hi))
    simp [hi, Nat.testBit_lt_two_pow this]

/-- C5 (counterexample): a phantom release — a release notification arriving
while the per-code counter is already 0 — is NOT dropped: the counter stays 0,
the drop test `(!state && count != 0)` fails, and a BUTTON_RELEASE event is
emitted.  The claim says such a release is dropped with no event. -/
theorem phantom_release_emits_event :
    (meta_seat_impl_notify_button 0 0 false BTN_LEFT false).1 =
      some { pressed := false, buttonNr := 1 } ∧
    (meta_seat_impl_notify_button 0 0 false BTN_LEFT false).2.1 = 0 := by
  decide

/-- C5 (amended): the per-code counter is incremented on press and
decremented on release except that it clamps at 0 (a phantom release leaves
it at 0); a press is dropped iff the counter was already ≥ 1, and a release
is dropped iff the counter was ≥ 2 — so a phantom release (counter 0) is
passed through and emits an event rather than being dropped. -/
theorem button_count_debouncing (count st : ℕ) (tablet : Bool) (button : ℤ)
    (pressed : Bool)
    (hvalid : ¬(clutter_button_from_evdev tablet button < 1 ∨
        12 < clutter_button_from_evdev tablet button)) :
    (meta_seat_impl_notify_button count st tablet button pressed).2.1 =
      (if pressed then count + 1 else count - 1) ∧
    ((meta_seat_impl_notify_button count st tablet button pressed).1 = none ↔
      ((pressed = true ∧ 1 ≤ count) ∨ (pressed = false ∧ 2 ≤ count))) := by
  unfold meta_seat_impl_notify_button update_button_count
  cases pressed with
  | true =>
      by_cases hc : 1 ≤ count
      · have hd : button_event_dropped (count + 1) true = true := by
          simp [button_event_dropped]; omega
        simp [hd, hc]
      · have hd : button_event_dropped (count + 1) true = false := by
          simp [button_event_dropped]; omega
        simp [hd, hvalid, hc]
  | false =>
      by_cases hc : 2 ≤ count
      · have hd : button_event_dropped (count - 1) false = true := by
          simp [button_event_dropped]; omega
        simp [hd, hc]
      · have hd : button_event_dropped (count - 1) false = false := by
          simp [button_event_dropped]; omega
        simp [hd, hvalid, hc]

/-- Closed witness for `button_count_debouncing`: a phantom release of
BTN_LEFT with counter 0 is not dropped. -/
theorem button_count_debouncing_witness :
    ¬(clutter_button_from_evdev false BTN_LEFT < 1 ∨
        12 < clutter_button_from_evdev false BTN_LEFT) ∧
    ((meta_seat_impl_notify_button 0 0 false BTN_LEFT false).2.1 =
      (if false then 0 + 1 else 0 - 1) ∧
    ((meta_seat_impl_notify_button 0 0 false BTN_LEFT false).1 = none ↔
      ((false = true ∧ 1 ≤ 0) ∨ (false = false ∧ 2 ≤ 0)))) :=
  ⟨by decide, button_count_debouncing 0 0 false BTN_LEFT false (by decide)⟩

/-- C7: raw KEY events are forwarded only when `seat_key_count` is 1 for a
press and 0 for a release; raw POINTER_BUTTON events likewise with
`seat_button_count`; consequently the S1 sequence — BTN_LEFT press (count 1),
press (count 2), release (count 1), release (count 0) — yields exactly
BUTTON_PRESS(logical 1) then BUTTON_RELEASE(logical 1), the middle two raw
events being dropped. -/
theorem seat_wide_debounce_and_S1 :
    (∀ (pressed : Bool) (n : ℕ), seat_wide_key_filter pressed n = false ↔
        ((pressed = true ∧ n = 1) ∨ (pressed = false ∧ n = 0))) ∧
    (∀ (pressed : Bool) (n : ℕ), seat_wide_button_filter pressed n = false ↔
        ((pressed = true ∧ n = 1) ∨ (pressed = false ∧ n = 0))) ∧
    run_button_events 0 0 false BTN_LEFT
        [(true, 1), (true, 2), (false, 1), (false, 0)] =
      [{ pressed := true, buttonNr := 1 },
       { pressed := false, buttonNr := 1 }] := by
  refine ⟨?_, ?_, by decide⟩
  · intro pressed n
    cases pressed <;> simp [seat_wide_key_filter]
  · intro pressed n
    cases pressed <;> simp [seat_wide_button_filter]

/-- C8: the evdev → logical button mapping (BTN_LEFT/BTN_TOUCH ↦ 1,
BTN_RIGHT/BTN_STYLUS ↦ 3, BTN_MIDDLE/BTN_STYLUS2 ↦ 2, BTN_STYLUS3 ↦ 8,
other tablet codes ↦ raw − BTN_TOOL_PEN + 4, other non-tablet codes ↦
raw − (BTN_LEFT − 1) + 4); results outside [1,12] are rejected with no event
and no `button_state` change; and `button_state` is maintained for logical
buttons 1..5 with the swapped mask order Button1, Button3, Button2, Button4,
Button5 (logical buttons above 5 leave the mask unchanged). -/
theorem button_mapping_and_mask (count st : ℕ) (tablet : Bool) (button : ℤ)
    (pressed : Bool) (hst : st < 2 ^ 32) :
    (clutter_button_from_evdev tablet BTN_LEFT = 1 ∧
     clutter_button_from_evdev tablet BTN_TOUCH = 1 ∧
     clutter_button_from_evdev tablet BTN_RIGHT = 3 ∧
     clutter_button_from_evdev tablet BTN_STYLUS = 3 ∧
     clutter_button_from_evdev tablet BTN_MIDDLE = 2 ∧
     clutter_button_from_evdev tablet BTN_STYLUS2 = 2 ∧
     clutter_button_from_evdev tablet BTN_STYLUS3 = 8) ∧
    (button ∉ [BTN_LEFT, BTN_RIGHT, BTN_MIDDLE, BTN_STYLUS3, BTN_TOUCH,
        BTN_STYLUS, BTN_STYLUS2] →
      clutter_button_from_evdev true button = button - BTN_TOOL_PEN + 4 ∧
      clutter_button_from_evdev false button = button - (BTN_LEFT - 1) + 4) ∧
    ((clutter_button_from_evdev tablet button < 1 ∨
        12 < clutter_button_from_evdev tablet button) →
      (meta_seat_impl_notify_button count st tablet button pressed).1 = none ∧
      (meta_seat_impl_notify_button count st tablet button pressed).2.2 = st) ∧
    (update_button_state_mask st 1 pressed =
      (if pressed then st ||| CLUTTER_BUTTON1_MASK
       else st &&& NOT32 CLUTTER_BUTTON1_MASK)) ∧
    (update_button_state_mask st 2 pressed =
      (if pressed then st ||| CLUTTER_BUTTON3_MASK
       else st &&& NOT32 CLUTTER_BUTTON3_MASK)) ∧
    (update_button_state_mask st 3 pressed =
      (if pressed then st ||| CLUTTER_BUTTON2_MASK
       else st &&& NOT32 CLUTTER_BUTTON2_MASK)) ∧
    (update_button_state_mask st 4 pressed =
      (if pressed then st ||| CLUTTER_BUTTON4_MASK
       else st &&& NOT32 CLUTTER_BUTTON4_MASK)) ∧
    (update_button_state_mask st 5 pressed =
      (if pressed then st ||| CLUTTER_BUTTON5_MASK
       else st &&& NOT32 CLUTTER_BUTTON5_MASK)) ∧
    (∀ nr : ℤ, 5 < nr → update_button_state_mask st nr pressed = st) := by
  refine ⟨by cases tablet <;> decide, ?_, ?_, ?_, ?_, ?_, ?_, ?_, ?_⟩
  · intro hb
    simp only [List.mem_cons, List.not_mem_nil, or_false] at hb
    push_neg at hb
    obtain ⟨h1, h2, h3, h4, h5, h6, h7⟩ := hb
    constructor <;>
      simp [clutter_button_from_evdev, h1, h2, h3, h4, h5, h6, h7]
  · intro hrange
    simp only [meta_seat_impl_notify_button]
    by_cases hd : button_event_dropped (update_button_count count pressed)
        pressed = true
    · rw [if_pos hd]
      exact ⟨rfl, rfl⟩
    · rw [if_neg hd, if_pos hrange]
      exact ⟨rfl, rfl⟩
  · simp [update_button_state_mask, maskmap]
  · simp [update_button_state_mask, maskmap]
  · simp [update_button_state_mask, maskmap]
  · simp [update_button_state_mask, maskmap]
  · simp [update_button_state_mask, maskmap]
  · intro nr hnr
    unfold update_button_state_mask
    by_cases h8 : nr < 8
    · have h67 : nr = 6 ∨ nr = 7 := by omega
      have hm : maskmap.getD (nr - 1).toNat 0 = 0 := by
        rcases h67 with h | h <;> subst h <;> decide
      rw [if_pos h8, hm]
      cases pressed with
      | true => simp
      | false =>
          show st &&& NOT32 0 = st
          have hnot : NOT32 0 = 2 ^ 32 - 1 := by unfold NOT32; simp
          rw [hnot]
          exact land_mask32_eq_self st hst
    · rw [if_neg h8]

/-- Closed witness for `button_mapping_and_mask`: at `st = 0` the logical-3
press sets the Button2 mask bit (the swapped entry of the mask table). -/
theorem button_mapping_and_mask_witness :
    (0 : ℕ) < 2 ^ 32 ∧
    update_button_state_mask 0 3 true =
      (if true then 0 ||| CLUTTER_BUTTON2_MASK
       else 0 &&& NOT32 CLUTTER_BUTTON2_MASK) :=
  ⟨by norm_num,
   (button_mapping_and_mask 0 0 false BTN_LEFT true
      (by norm_num)).2.2.2.2.2.1⟩

/-! ## Viewports and the pointer constrain chain (meta-seat-impl.c:
constrain_all_screen_monitors, meta_seat_impl_constrain_pointer).
The barrier manager and the optional pointer constraint are external
collaborators (they are no-ops when no barrier is active and no constraint is
installed); the viewport hit test `meta_viewport_info_get_view_at` is not part
of this repository's sources and is modelled from the spec. -/

/-- A viewport: integer monitor rectangle plus output scale. -/
structure ViewRect where
  x : ℤ
  y : ℤ
  width : ℤ
  height : ℤ
  scale : ℚ
deriving DecidableEq, Repr

/-- Point-in-view test, half open on the right/bottom, exactly the comparison
`(cx >= left) && (cx < right) && (cy >= top) && (cy < bottom)` used by
`constrain_all_screen_monitors`. -/
def view_contains (r : ViewRect) (px py : ℚ) : Bool :=
  decide ((r.x : ℚ) ≤ px) && decide (px < (r.x : ℚ) + (r.width : ℚ)) &&
  decide ((r.y : ℚ) ≤ py) && decide (py < (r.y : ℚ) + (r.height : ℚ))

/-- Index scan underlying `get_view_at`. -/
def get_view_at_from (views : List ViewRect) (idx : ℕ) (px py : ℚ) :
    Option ℕ :=
  match views with
  | [] => none
  | r :: rest =>
      if view_contains r px py then some idx
      else get_view_at_from rest (idx + 1) px py

/-- Modelled from the spec: `meta_viewport_info_get_view_at` (viewport
geometry is consumed read-only; "hit-test a point → view index or -1",
here `none`). -/
def get_view_at (views : List ViewRect) (px py : ℚ) : Option ℕ :=
  get_view_at_from views 0 px py

/-- The view-lookup loop of `constrain_all_screen_monitors`: the first view
containing the current pointer position. -/
def find_containing (views : List ViewRect) (cx cy : ℚ) : Option ViewRect :=
  match views with
  | [] => none
  | r :: rest =>
      if view_contains r cx cy then some r else find_containing rest cx cy

/-- The per-axis clamp of `constrain_all_screen_monitors`:
`if (*x < left) *x = left; if (*x >= right) *x = right - 1;` and likewise
for y. -/
def clamp_to_view (r : ViewRect) (x y : ℚ) : ℚ × ℚ :=
  let x1 := if x < (r.x : ℚ) then (r.x : ℚ) else x
  let x2 := if (r.x : ℚ) + (r.width : ℚ) ≤ x1 then
      (r.x : ℚ) + (r.width : ℚ) - 1 else x1
  let y1 := if y < (r.y : ℚ) then (r.y : ℚ) else y
  let y2 := if (r.y : ℚ) + (r.height : ℚ) ≤ y1 then
      (r.y : ℚ) + (r.height : ℚ) - 1 else y1
  (x2, y2)

/-- `constrain_all_screen_monitors`: find the first view the *current* pointer
position is in and clamp the candidate into it; if the current position is in
no view, the candidate passes through unchanged. -/
def constrain_all_screen_monitors (views : List ViewRect) (cx cy x y : ℚ) :
    ℚ × ℚ :=
  match find_containing views cx cy with
  | some r => clamp_to_view r x y
  | none => (x, y)

/-- `meta_seat_impl_constrain_pointer` with no active barrier and no pointer
constraint installed (both are external no-ops then): if no viewports are
configured, or the candidate already lies in some view, keep it; otherwise
run the monitor clamp.  `(cx, cy)` is the current pointer position, `(x, y)`
the candidate. -/
def meta_seat_impl_constrain_pointer (viewports : Option (List ViewRect))
    (cx cy x y : ℚ) : ℚ × ℚ :=
  match viewports with
  | none => (x, y)
  | some views =>
      if (get_view_at views x y).isSome then (x, y)
      else constrain_all_screen_monitors views cx cy x y

theorem get_view_at_from_none_iff (views : List ViewRect) (idx : ℕ)
    (px py : ℚ) :
    get_view_at_from views idx px py = none ↔
      ∀ r ∈ views, view_contains r px py = false := by
  induction views generalizing idx with
  | nil => simp [get_view_at_from]
  | cons a l ih =>
      by_cases ha : view_contains a px py
      · simp [get_view_at_from, ha]
      · simp only [get_view_at_from, ha, Bool.false_eq_true, if_false,
          List.mem_cons]
        rw [ih (idx + 1)]
        constructor
        · intro h r hr
          rcases hr with h1 | h1
          · subst h1
            exact Bool.not_eq_true _ |>.mp ha
          · exact h r h1
        · intro h r hr
          exact h r (Or.inr hr)

theorem get_view_at_isSome_exists (views : List ViewRect) (px py : ℚ)
    (h : (get_view_at views px py).isSome) :
    ∃ r ∈ views, view_contains r px py = true := by
  by_contra hno
  push_neg at hno
  have hnone : get_view_at views px py = none :=
    (get_view_at_from_none_iff views 0 px py).mpr
      (fun r hr => by simpa using hno r hr)
  rw [hnone] at h
  simp at h

theorem find_containing_isSome (views : List ViewRect) (cx cy : ℚ)
    (h : ∃ r ∈ views, view_contains r cx cy = true) :
    ∃ r, find_containing views cx cy = some r := by
  induction views with
  | nil => simp at h
  | cons a l ih =>
      by_cases ha : view_contains a cx cy
      · exact ⟨a, by simp [find_containing, ha]⟩
      · obtain ⟨r, hr, hc⟩ := h
        rcases List.mem_cons.mp hr with h1 | h1
        · subst h1
          exact absurd hc ha
        · obtain ⟨r1, hr1⟩ := ih ⟨r, h1, hc⟩
          exact ⟨r1, by simp [find_containing, ha, hr1]⟩

theorem find_containing_mem (views : List ViewRect) (cx cy : ℚ)
    (r : ViewRect) (h : find_containing views cx cy = some r) :
    r ∈ views := by
  induction views with
  | nil => simp [find_containing] at h
  | cons a l ih =>
      by_cases ha : view_contains a cx cy
      · simp only [find_containing, ha, if_true, Option.some.injEq] at h
        simp [h]
      · simp only [find_containing, ha, Bool.false_eq_true, if_false] at h
        exact List.mem_cons_of_mem a (ih h)

theorem clamp_to_view_mem (r : ViewRect) (hw : 0 < r.width)
    (hh : 0 < r.height) (x y : ℚ) :
    view_contains r (clamp_to_view r x y).1 (clamp_to_view r x y).2 = true := by
  have hw1 : (1 : ℚ) ≤ (r.width : ℚ) := by exact_mod_cast hw
  have hh1 : (1 : ℚ) ≤ (r.height : ℚ) := by exact_mod_cast hh
  simp only [clamp_to_view, view_contains, Bool.and_eq_true,
    decide_eq_true_eq]
  refine ⟨⟨⟨?_, ?_⟩, ?_⟩, ?_⟩ <;> split_ifs <;> linarith

/-- C6 (counterexample): with one configured view at (1000,0)–(2000,1000),
the current pointer at (16,16) — outside every view — and candidate
(5000,5000), the constrain chain passes the candidate through unchanged, so
after the event the pointer lies outside the union of view rectangles even
though a viewport layout is configured. -/
theorem pointer_escapes_when_current_outside_views :
    meta_seat_impl_constrain_pointer
        (some [{ x := 1000, y := 0, width := 1000, height := 1000,
                 scale := 1 }]) 16 16 5000 5000 = (5000, 5000) ∧
    ([({ x := 1000, y := 0, width := 1000, height := 1000, scale := 1 } :
        ViewRect)].any (fun r => view_contains r 5000 5000)) = false := by
  norm_num [meta_seat_impl_constrain_pointer, get_view_at, get_view_at_from,
    constrain_all_screen_monitors, find_containing, view_contains]

/-- C6 (amended): *provided the current pointer position lies inside some
view*, the constrained position lies inside the union of the view rectangles
(views being nonempty rectangles); and when the candidate lies outside every
view, the result is the per-axis clamp of the candidate into the first view
containing the current position, hence inside that view. -/
theorem pointer_constrain_in_union (views : List ViewRect) (cx cy x y : ℚ)
    (hpos : ∀ r ∈ views, 0 < r.width ∧ 0 < r.height)
    (hcur : ∃ r ∈ views, view_contains r cx cy = true) :
    (∃ r ∈ views,
      view_contains r
        (meta_seat_impl_constrain_pointer (some views) cx cy x y).1
        (meta_seat_impl_constrain_pointer (some views) cx cy x y).2 = true) ∧
    (get_view_at views x y = none →
      ∃ r, find_containing views cx cy = some r ∧
        meta_seat_impl_constrain_pointer (some views) cx cy x y =
          clamp_to_view r x y ∧
        view_contains r (clamp_to_view r x y).1 (clamp_to_view r x y).2 =
          true) := by
  obtain ⟨r, hr⟩ := find_containing_isSome views cx cy hcur
  have hrmem := find_containing_mem views cx cy r hr
  obtain ⟨hw, hh⟩ := hpos r hrmem
  constructor
  · cases hga : get_view_at views x y with
    | some i =>
        have hs : (get_view_at views x y).isSome := by rw [hga]; rfl
        obtain ⟨r1, h1, h2⟩ := get_view_at_isSome_exists views x y hs
        refine ⟨r1, h1, ?_⟩
        simp only [meta_seat_impl_constrain_pointer, hga, Option.isSome_some,
          if_true]
        exact h2
    | none =>
        refine ⟨r, hrmem, ?_⟩
        simp only [meta_seat_impl_constrain_pointer, hga, Option.isSome_none,
          Bool.false_eq_true, if_false, constrain_all_screen_monitors, hr]
        exact clamp_to_view_mem r hw hh x y
  · intro hga
    refine ⟨r, hr, ?_, clamp_to_view_mem r hw hh x y⟩
    simp only [meta_seat_impl_constrain_pointer, hga, Option.isSome_none,
      Bool.false_eq_true, if_false, constrain_all_screen_monitors, hr]

/-- Closed witness for `pointer_constrain_in_union`: a single 100×100 view at
the origin, current position (5,5), candidate (500,500) → clamped into the
view. -/
theorem pointer_constrain_in_union_witness :
    (∀ r ∈ [({ x := 0, y := 0, width := 100, height := 100, scale := 1 } :
        ViewRect)], 0 < r.width ∧ 0 < r.height) ∧
    (∃ r ∈ [({ x := 0, y := 0, width := 100, height := 100, scale := 1 } :
        ViewRect)], view_contains r 5 5 = true) ∧
    (∃ r ∈ [({ x := 0, y := 0, width := 100, height := 100, scale := 1 } :
        ViewRect)],
      view_contains r
        (meta_seat_impl_constrain_pointer
          (some [{ x := 0, y := 0, width := 100, height := 100,
                   scale := 1 }]) 5 5 500 500).1
        (meta_seat_impl_constrain_pointer
          (some [{ x := 0, y := 0, width := 100, height := 100,
                   scale := 1 }]) 5 5 500 500).2 = true) :=
  ⟨by norm_num, by norm_num [view_contains],
   (pointer_constrain_in_union
      [{ x := 0, y := 0, width := 100, height := 100, scale := 1 }]
      5 5 500 500 (by norm_num) (by norm_num [view_contains])).1⟩

/-! ## Relative motion across outputs (meta-seat-impl.c:
relative_motion_across_outputs, meta_seat_impl_filter_relative_motion,
meta_seat_impl_notify_relative_motion).  The segment-intersection helper
`meta_line2_intersects_with` and the viewport neighbor lookup are external to
these sources and are modelled from the spec ("intersect the motion segment
against the current view's four edges", "directional neighbor lookup"). -/

/-- `MetaDisplayDirection`. -/
inductive MetaDisplayDirection where
  | up
  | down
  | left
  | right
deriving DecidableEq, Repr

/-- Modelled from the spec: `meta_line2_intersects_with` — intersection of the
closed segments `p1–p2` and `q1–q2` (parallel segments do not intersect),
returning the intersection point. -/
def meta_line2_intersects_with (p1 p2 q1 q2 : ℚ × ℚ) : Option (ℚ × ℚ) :=
  let denom := (p1.1 - p2.1) * (q1.2 - q2.2) - (p1.2 - p2.2) * (q1.1 - q2.1)
  if denom = 0 then none
  else
    let t := ((p1.1 - q1.1) * (q1.2 - q2.2) -
              (p1.2 - q1.2) * (q1.1 - q2.1)) / denom
    let u := -(((p1.1 - p2.1) * (p1.2 - q1.2) -
                (p1.2 - p2.2) * (p1.1 - q1.1)) / denom)
    if t < 0 ∨ 1 < t ∨ u < 0 ∨ 1 < u then none
    else some (p1.1 + t * (p2.1 - p1.1), p1.2 + t * (p2.2 - p1.2))

/-- The ordered edge checks of one iteration of
`relative_motion_across_outputs`: left (unless the last crossing went right),
right (unless it went left), top (unless it went down), bottom (unless it
went up); returns the new direction and the intersection point, or `none`
when the motion stays inside (the loop's `break`). -/
def pick_crossing (dir : Option MetaDisplayDirection) (motionA motionB : ℚ × ℚ)
    (r : ViewRect) : Option (MetaDisplayDirection × (ℚ × ℚ)) :=
  let leftA : ℚ × ℚ := ((r.x : ℚ), (r.y : ℚ))
  let leftB : ℚ × ℚ := ((r.x : ℚ), (r.y : ℚ) + (r.height : ℚ))
  let rightA : ℚ × ℚ := ((r.x : ℚ) + (r.width : ℚ), (r.y : ℚ))
  let rightB : ℚ × ℚ := ((r.x : ℚ) + (r.width : ℚ), (r.y : ℚ) + (r.height : ℚ))
  let topA : ℚ × ℚ := ((r.x : ℚ), (r.y : ℚ))
  let topB : ℚ × ℚ := ((r.x : ℚ) + (r.width : ℚ), (r.y : ℚ))
  let botA : ℚ × ℚ := ((r.x : ℚ), (r.y : ℚ) + (r.height : ℚ))
  let botB : ℚ × ℚ := ((r.x : ℚ) + (r.width : ℚ), (r.y : ℚ) + (r.height : ℚ))
  match (if dir ≠ some .right then
      meta_line2_intersects_with motionA motionB leftA leftB else none) with
  | some p => some (.left, p)
  | none =>
  match (if dir ≠ some .left then
      meta_line2_intersects_with motionA motionB rightA rightB else none) with
  | some p => some (.right, p)
  | none =>
  match (if dir ≠ some .down then
      meta_line2_intersects_with motionA motionB topA topB else none) with
  | some p => some (.up, p)
  | none =>
  match (if dir ≠ some .up then
      meta_line2_intersects_with motionA motionB botA botB else none) with
  | some p => some (.down, p)
  | none => none

/-- The `while (cur_view >= 0)` loop of `relative_motion_across_outputs`,
with explicit fuel (`none` on fuel exhaustion; the concrete runs below use 2
iterations).  Arguments: fuel, current view (`none` = `cur_view < 0`), last
crossing direction, current (x, y), remaining raw (dx, dy), and the last
`target` value.  Returns the final target point. -/
def relative_motion_loop (views : List ViewRect)
    (neighbor : ℕ → MetaDisplayDirection → Option ℕ) :
    ℕ → Option ℕ → Option MetaDisplayDirection → ℚ → ℚ → ℚ → ℚ →
    ℚ × ℚ → Option (ℚ × ℚ)
  | _, none, _, _, _, _, _, target => some target
  | 0, some _, _, _, _, _, _, _ => none
  | fuel + 1, some v, dir, x, y, dx, dy, _ =>
      match views[v]? with
      | none => none
      | some r =>
          let motionA : ℚ × ℚ := (x, y)
          let motionB : ℚ × ℚ := (x + dx * r.scale, y + dy * r.scale)
          match pick_crossing dir motionA motionB r with
          | none => some motionB
          | some (d, p) =>
              relative_motion_loop views neighbor fuel (neighbor v d) (some d)
                p.1 p.2 (dx - (p.1 - x)) (dy - (p.2 - y)) motionB

/-- `relative_motion_across_outputs`: run the bisection loop from the current
position and turn the final target back into a delta. -/
def relative_motion_across_outputs (views : List ViewRect)
    (neighbor : ℕ → MetaDisplayDirection → Option ℕ) (fuel : ℕ) (view : ℕ)
    (cur_x cur_y dx dy : ℚ) : Option (ℚ × ℚ) :=
  (relative_motion_loop views neighbor fuel (some view) none cur_x cur_y
      dx dy (cur_x, cur_y)).map
    (fun t => (t.1 - cur_x, t.2 - cur_y))

/-- `meta_seat_impl_filter_relative_motion`: skip when stage views are scaled
or no view contains the pointer; otherwise scale the delta by the current
view's scale, and if the scaled destination lands in a different view run the
bisection on the raw delta. -/
def meta_seat_impl_filter_relative_motion (stage_views_scaled : Bool)
    (viewports : Option (List ViewRect))
    (neighbor : ℕ → MetaDisplayDirection → Option ℕ) (fuel : ℕ)
    (x y dx dy : ℚ) : Option (ℚ × ℚ) :=
  if stage_views_scaled then some (dx, dy)
  else
    match viewports with
    | none => some (dx, dy)
    | some views =>
        match get_view_at views x y with
        | none => some (dx, dy)
        | some view =>
            match views[view]? with
            | none => none
            | some r =>
                let new_dx := dx * r.scale
                let new_dy := dy * r.scale
                match get_view_at views (x + new_dx) (y + new_dy) with
                | some dest =>
                    if dest ≠ view then
                      relative_motion_across_outputs views neighbor fuel view
                        x y dx dy
                    else some (new_dx, new_dy)
                | none => some (new_dx, new_dy)

/-- `meta_seat_impl_notify_relative_motion` for the core pointer: filter the
delta, add it to the pointer position, constrain the result (non-tablet path
of `new_absolute_motion_event`), and attach the filtered delta as the event's
relative motion.  Returns (final pointer position, attached delta). -/
def meta_seat_impl_notify_relative_motion (stage_views_scaled : Bool)
    (viewports : Option (List ViewRect))
    (neighbor : ℕ → MetaDisplayDirection → Option ℕ) (fuel : ℕ)
    (px py dx dy : ℚ) : Option ((ℚ × ℚ) × (ℚ × ℚ)) :=
  match meta_seat_impl_filter_relative_motion stage_views_scaled viewports
      neighbor fuel px py dx dy with
  | none => none
  | some d =>
      some (meta_seat_impl_constrain_pointer viewports px py (px + d.1)
              (py + d.2), d)

/-- The two-viewport layout of scenario S5: v0 = (0,0)–(1000,1000) at scale 1,
v1 = (1000,0)–(2000,1000) at scale 2. -/
def s5_views : List ViewRect :=
  [{ x := 0, y := 0, width := 1000, height := 1000, scale := 1 },
   { x := 1000, y := 0, width := 1000, height := 1000, scale := 2 }]

/-- Modelled from the spec: the neighbor lookup for the S5 layout (v1 is to
the right of v0). -/
def s5_neighbor : ℕ → MetaDisplayDirection → Option ℕ := fun v d =>
  match v, d with
  | 0, .right => some 1
  | 1, .left => some 0
  | _, _ => none

/-- C2 (amended): in scenario S5 — pointer at (950,500), raw relative motion
(200,0) — the code produces a single MOTION event with final pointer position
(1300,500) and attached relative delta (350,0): the loop consumes 50 raw
pixels to reach the boundary at (1000,500), then applies the remaining 150
raw pixels at view v1's scale 2, giving 300 more pixels; the break leaves
`target` at the full scaled endpoint (1300,500). -/
theorem cross_output_motion_s5 :
    meta_seat_impl_notify_relative_motion false (some s5_views) s5_neighbor 8
        950 500 200 0 =
      some ((1300, 500), (350, 0)) := by
  norm_num +decide [meta_seat_impl_notify_relative_motion,
    meta_seat_impl_filter_relative_motion, relative_motion_across_outputs,
    relative_motion_loop, pick_crossing, meta_line2_intersects_with,
    get_view_at, get_view_at_from, view_contains, s5_views, s5_neighbor,
    meta_seat_impl_constrain_pointer, constrain_all_screen_monitors,
    find_containing, clamp_to_view]

/-- C2 (counterexample): the claimed outcome — final position (1100,500)
with attached delta (150,0) — is not what the pipeline computes in S5. -/
theorem cross_output_motion_s5_not_as_claimed :
    meta_seat_impl_notify_relative_motion false (some s5_views) s5_neighbor 8
        950 500 200 0 ≠
      some ((1100, 500), (150, 0)) := by
  norm_num +decide [meta_seat_impl_notify_relative_motion,
    meta_seat_impl_filter_relative_motion, relative_motion_across_outputs,
    relative_motion_loop, pick_crossing, meta_line2_intersects_with,
    get_view_at, get_view_at_from, view_contains, s5_views, s5_neighbor,
    meta_seat_impl_constrain_pointer, constrain_all_screen_monitors,
    find_containing, clamp_to_view]

/-! ## Touch-slot table (meta-seat-impl.c:
meta_seat_impl_acquire_touch_state and the LIBINPUT_EVENT_TOUCH_DOWN case of
process_device_event).  `meta_seat_impl_acquire_touch_state` runs
`g_assert (!g_hash_table_contains (touch_states, seat_slot))`, so acquiring a
live slot is an assertion failure (process abort), modelled as `none`. -/

/-- `meta_seat_impl_acquire_touch_state` on the set of live seat slots:
asserts the slot is not live (abort = `none`), then inserts it. -/
def meta_seat_impl_acquire_touch_state (slots : List ℤ) (slot : ℤ) :
    Option (List ℤ) :=
  if slot ∈ slots then none else some (slot :: slots)

/-- Outcome of processing one TOUCH_DOWN raw event. -/
inductive TouchDownResult where
  | aborted
  | ok (slots : List ℤ) (slot : ℤ) (x y : ℚ)
deriving DecidableEq, Repr

/-- The LIBINPUT_EVENT_TOUCH_DOWN case of `process_device_event`: acquire the
seat slot (no liveness check before the acquire), store the coords, queue a
TOUCH_BEGIN event. -/
def process_touch_down (slots : List ℤ) (slot : ℤ) (x y : ℚ) :
    TouchDownResult :=
  match meta_seat_impl_acquire_touch_state slots slot with
  | none => .aborted
  | some slots' => .ok slots' slot x y

/-- C4 (counterexample): a TOUCH_DOWN whose seat slot already has a live
TouchState hits the `g_assert` in `meta_seat_impl_acquire_touch_state` and
aborts; it is not handled as a warn-and-continue no-op. -/
theorem touch_down_on_live_slot_aborts :
    process_touch_down [0] 0 0 0 = TouchDownResult.aborted := by
  decide

/-- C4 (amended): TOUCH_DOWN on a live slot triggers the assertion (process
abort, no surviving state); TOUCH_DOWN on a free slot inserts exactly that
slot and queues the TOUCH_BEGIN event. -/
theorem touch_down_acquire (slots : List ℤ) (slot : ℤ) (x y : ℚ) :
    (slot ∈ slots → process_touch_down slots slot x y =
      TouchDownResult.aborted) ∧
    (slot ∉ slots → process_touch_down slots slot x y =
      TouchDownResult.ok (slot :: slots) slot x y) := by
  constructor
  · intro h
    simp [process_touch_down, meta_seat_impl_acquire_touch_state, h]
  · intro h
    simp [process_touch_down, meta_seat_impl_acquire_touch_state, h]

/-- Closed witness for `touch_down_acquire`: live slot 0 aborts; fresh slot 0
on a seat holding only slot 1 succeeds. -/
theorem touch_down_acquire_witness :
    process_touch_down [0] 0 0 0 = TouchDownResult.aborted ∧
    process_touch_down [1] 0 0 0 = TouchDownResult.ok [0, 1] 0 0 0 :=
  ⟨(touch_down_acquire [0] 0 0 0).1 (by decide),
   (touch_down_acquire [1] 0 0 0).2 (by decide)⟩

/-! ## Virtual touch-slot reservation (meta-seat-native.c:
bump_virtual_touch_slot_base, meta_seat_native_create_virtual_device,
meta_seat_native_release_touch_slots).  `virtual_touch_slot_base` starts at 0
(GObject zero-initialisation) and is a persistent counter stored in guint,
modelled with an explicit `% 2^32`. -/

/-- Modelled from the spec: `CLUTTER_VIRTUAL_INPUT_DEVICE_MAX_TOUCH_SLOTS`
(the per-device max-touch-slots constant, "256 in the current core"; the
defining header is not part of these sources). -/
def MAX_TOUCH_SLOTS_PER_VIRTUAL_DEVICE : ℕ := 256

/-- The `while (TRUE)` loop of `bump_virtual_touch_slot_base`: clamp the
counter up to 0x100 when below, add the max-touch-slots constant (guint
wrap), and retry while the value is reserved.  Fuel-bounded; every run below
uses at most `reserved.length + 1` iterations. -/
def bump_loop (reserved : List ℕ) : ℕ → ℕ → Option ℕ
  | 0, _ => none
  | fuel + 1, base =>
      let b1 := if base < 0x100 then 0x100 else base
      let b2 := (b1 + MAX_TOUCH_SLOTS_PER_VIRTUAL_DEVICE) % 2 ^ 32
      if b2 ∈ reserved then bump_loop reserved fuel b2 else some b2

/-- `bump_virtual_touch_slot_base`: returns the new counter value (also the
new `virtual_touch_slot_base`). -/
def bump_virtual_touch_slot_base (base : ℕ) (reserved : List ℕ) : Option ℕ :=
  bump_loop reserved (reserved.length + 1) base

/-- The reservation step of `meta_seat_native_create_virtual_device`: bump,
then add the returned base to the reserved set.  Result: (returned slot base,
new counter, new reserved set). -/
def meta_seat_native_create_virtual_device (base : ℕ) (reserved : List ℕ) :
    Option (ℕ × ℕ × List ℕ) :=
  (bump_virtual_touch_slot_base base reserved).map
    (fun b => (b, b, b :: reserved))

/-- `meta_seat_native_release_touch_slots`: remove a base from the set. -/
def meta_seat_native_release_touch_slots (reserved : List ℕ) (b : ℕ) :
    List ℕ :=
  reserved.filter (fun r => decide (r ≠ b))

/-- C3 (counterexample): from the initial state (counter 0, nothing
reserved) the first reservation returns 0x200 — not 0x100, the smallest free
multiple of 256 that is ≥ 0x100 — because the counter is always bumped
before the availability check; and `reserve_next(); release(base);
reserve_next()` returns 0x300 the second time, not the same base. -/
theorem virtual_slot_first_reservation_not_smallest :
    meta_seat_native_create_virtual_device 0 [] =
      some (0x200, 0x200, [0x200]) ∧
    (0x200 : ℕ) ≠ 0x100 ∧
    meta_seat_native_create_virtual_device 0x200
        (meta_seat_native_release_touch_slots [0x200] 0x200) =
      some (0x300, 0x300, [0x300]) ∧
    (0x300 : ℕ) ≠ 0x200 := by
  decide

/-- C3 (amended): `reserve_next` advances a persistent counter — clamped up
to 0x100 when below, then repeatedly bumped by 256 while the candidate is
reserved — so the value it returns is never currently reserved, and it stays
a multiple of 256 whenever the counter was one; but it is not the smallest
free base, and releasing a base does not make the next reservation return
it. -/
theorem virtual_slot_bump_properties (reserved : List ℕ) (fuel base b : ℕ)
    (h : bump_loop reserved fuel base = some b) :
    b ∉ reserved ∧ (base % 256 = 0 → b % 256 = 0) := by
  induction fuel generalizing base with
  | zero => simp [bump_loop] at h
  | succ n ih =>
      rw [bump_loop] at h
      set b1 := if base < 0x100 then 0x100 else base with hb1
      set b2 := (b1 + MAX_TOUCH_SLOTS_PER_VIRTUAL_DEVICE) % 2 ^ 32 with hb2
      have hmod : base % 256 = 0 → b2 % 256 = 0 := by
        intro hbase
        rw [hb2, hb1]
        unfold MAX_TOUCH_SLOTS_PER_VIRTUAL_DEVICE
        split <;> omega
      by_cases hmem : b2 ∈ reserved
      · rw [if_pos hmem] at h
        obtain ⟨h1, h2⟩ := ih b2 h
        exact ⟨h1, fun hb => h2 (hmod hb)⟩
      · rw [if_neg hmem] at h
        obtain rfl : b2 = b := by
          simpa using h
        exact ⟨hmem, hmod⟩

/-- Closed witness for `virtual_slot_bump_properties` at the initial state:
one iteration returns 0x200, unreserved and a multiple of 256. -/
theorem virtual_slot_bump_properties_witness :
    bump_loop [] 1 0 = some 0x200 ∧
    ((0x200 : ℕ) ∉ ([] : List ℕ) ∧ (0 % 256 = 0 → 0x200 % 256 = 0)) :=
  ⟨by decide, virtual_slot_bump_properties [] 1 0 0x200 (by decide)⟩

/-! ## Keyboard numlock (meta-seat-impl.c:
meta_seat_impl_set_keyboard_numlock).  The xkb keyboard-state component is an
external collaborator; per the spec it exposes
`serialize_mods({depressed,latched,locked})` and
`update_mask(depressed,latched,locked,g1,g2,layout)`, modelled as a record of
the serialized masks which `update_mask` overwrites. -/

/-- Modelled from the spec: the xkb state's serialized components
(depressed/latched/locked modifier masks and the effective layout). -/
structure XkbState where
  depressed : ℕ
  latched : ℕ
  locked : ℕ
  group : ℕ
deriving DecidableEq, Repr

/-- `meta_seat_impl_set_keyboard_numlock`: serialize the current masks, set
or clear the Mod2 (`numlockMask`) bit in the locked mask, and re-apply all
masks preserving the layout. -/
def meta_seat_impl_set_keyboard_numlock (numlockMask : ℕ) (st : XkbState)
    (numlock_state : Bool) : XkbState :=
  { depressed := st.depressed
    latched := st.latched
    locked := if numlock_state then st.locked ||| numlockMask
      else st.locked &&& NOT32 numlockMask
    group := st.group }

theorem lor_land_not32 (l m : ℕ) (hm : m < 2 ^ 32) :
    (l ||| m) &&& NOT32 m = l &&& NOT32 m := by
  apply Nat.eq_of_testBit_eq
  intro i
  by_cases hi : i < 32
  · simp only [Nat.testBit_land, Nat.testBit_lor, NOT32, Nat.testBit_xor,
      Nat.testBit_two_pow_sub_one]
    cases h1 : l.testBit i <;> cases h2 : m.testBit i <;> simp [hi]
  · have h2 : m.testBit i = false :=
      Nat.testBit_lt_two_pow
        (lt_of_lt_of_le hm (Nat.pow_le_pow_right (by norm_num)
          (not_lt.mp hi)))
    simp only [Nat.testBit_land, Nat.testBit_lor, NOT32, Nat.testBit_xor,
      Nat.testBit_two_pow_sub_one, h2]
    cases h1 : l.testBit i <;> simp [hi]

theorem land_not32_of_disjoint (l m : ℕ) (hl : l < 2 ^ 32)
    (h : l &&& m = 0) : l &&& NOT32 m = l := by
  apply Nat.eq_of_testBit_eq
  intro i
  have hbit : (l.testBit i && m.testBit i) = false := by
    have h0 := congrArg (fun n => n.testBit i) h
    simpa [Nat.testBit_land] using h0
  simp only [Nat.testBit_land, NOT32, Nat.testBit_xor,
    Nat.testBit_two_pow_sub_one]
  by_cases hi : i < 32
  · cases hlb : l.testBit i <;> cases hmb : m.testBit i <;>
      simp_all
  · have hz : l.testBit i = false :=
      Nat.testBit_lt_two_pow
        (lt_of_lt_of_le hl (Nat.pow_le_pow_right (by norm_num)
          (not_lt.mp hi)))
    simp [hz]

/-- C9 (counterexample): starting from a state whose locked mask already has
Mod2 set (numlock on, mask 16), `set_keyboard_numlock(true)` then
`set_keyboard_numlock(false)` leaves the locked mask at 0 — not its original
value 16. -/
theorem numlock_toggle_not_restoring :
    (meta_seat_impl_set_keyboard_numlock 16
        (meta_seat_impl_set_keyboard_numlock 16
          { depressed := 0, latched := 0, locked := 16, group := 0 } true)
        false).locked ≠
      ({ depressed := 0, latched := 0, locked := 16, group := 0 } :
        XkbState).locked := by
  decide

/-- C9 (amended): `set_keyboard_numlock(true); set_keyboard_numlock(false)`
leaves the serialized locked mask at `original &&& ~Mod2` — the original
with the Mod2 bit cleared — so the original mask is restored exactly iff its
Mod2 bit was clear; depressed, latched and layout are preserved. -/
theorem numlock_toggle_final (numlockMask : ℕ) (st : XkbState)
    (hm : numlockMask < 2 ^ 32) (hl : st.locked < 2 ^ 32) :
    ((meta_seat_impl_set_keyboard_numlock numlockMask
        (meta_seat_impl_set_keyboard_numlock numlockMask st true)
        false).locked = st.locked &&& NOT32 numlockMask) ∧
    (st.locked &&& numlockMask = 0 →
      (meta_seat_impl_set_keyboard_numlock numlockMask
        (meta_seat_impl_set_keyboard_numlock numlockMask st true)
        false).locked = st.locked) ∧
    (meta_seat_impl_set_keyboard_numlock numlockMask
        (meta_seat_impl_set_keyboard_numlock numlockMask st true)
        false).depressed = st.depressed ∧
    (meta_seat_impl_set_keyboard_numlock numlockMask
        (meta_seat_impl_set_keyboard_numlock numlockMask st true)
        false).latched = st.latched ∧
    (meta_seat_impl_set_keyboard_numlock numlockMask
        (meta_seat_impl_set_keyboard_numlock numlockMask st true)
        false).group = st.group := by
  refine ⟨?_, ?_, rfl, rfl, rfl⟩
  · exact lor_land_not32 st.locked numlockMask hm
  · intro h0
    show (st.locked ||| numlockMask) &&& NOT32 numlockMask = st.locked
    rw [lor_land_not32 st.locked numlockMask hm]
    exact land_not32_of_disjoint st.locked numlockMask hl h0

/-- Closed witness for `numlock_toggle_final`: with Mod2 (16) initially
clear, the toggle pair restores the locked mask. -/
theorem numlock_toggle_final_witness :
    ((16 : ℕ) < 2 ^ 32) ∧ ((0 : ℕ) < 2 ^ 32) ∧
    (meta_seat_impl_set_keyboard_numlock 16
        (meta_seat_impl_set_keyboard_numlock 16
          { depressed := 0, latched := 0, locked := 0, group := 0 } true)
        false).locked =
      ({ depressed := 0, latched := 0, locked := 0, group := 0 } :
        XkbState).locked :=
  ⟨by norm_num, by norm_num,
   (numlock_toggle_final 16
      { depressed := 0, latched := 0, locked := 0, group := 0 }
      (by norm_num) (by norm_num)).2.1 (by decide)⟩

end MetaSeat



